import Mathlib

/-!
Shallow embedding of the GeminiIntegrationWithFastAPI service:
a FastAPI application storing "sample paper" documents in MongoDB
(`src/routes/paper_routes.py`, `src/models/paper_model.py`,
`src/helper/helper.py`, `src/config/db_config.py`, `src/main.py`),
caching reads in Redis, and tracking asynchronous text-extraction jobs
through task records.

Documents are modelled as association lists of BSON-like values; the
pydantic models are embedded as validating parsers producing normalized
documents, mirroring pydantic v2 construction-time validation followed by
`model_dump` serialization.  Handlers are pure state transformers over the
application state (papers collection, Redis cache, Tasks collection).
-/

namespace PaperApi

/-- JSON/BSON-like values stored in documents, caches and request bodies. -/
inductive Value where
  | vNull : Value
  | vStr : String → Value
  | vInt : Int → Value
  | vList : List Value → Value
  | vObj : List (String × Value) → Value

/-- A MongoDB document / Python dict: an association list from field names to
values.  The Mongo-internal `_id` field is elided from the model: `get_paper`
pops it before caching or returning, and `SamplePaper(**existing_paper)`
ignores it (pydantic extra fields are ignored by default). -/
abbrev Doc := List (String × Value)

/-- Field lookup in a document (first occurrence wins, as in Python dicts,
which cannot hold duplicate keys). -/
def docLookup : Doc → String → Option Value
  | [], _ => none
  | (k', v') :: rest, k => if k' == k then some v' else docLookup rest k

/-- MongoDB `$set` of a single field: replaces the first occurrence of the
field, or appends the field if absent. -/
def setField : Doc → String → Value → Doc
  | [], k, v => [(k, v)]
  | (k', v') :: rest, k, v =>
      if k' == k then (k, v) :: rest else (k', v') :: setField rest k v

/-- MongoDB `$set` with a partial field map: sets each named field in order. -/
def setFields (d : Doc) (patch : Doc) : Doc :=
  patch.foldl (fun acc kv => setField acc kv.1 kv.2) d

/-- Does document `d` have string value `idv` at field `key`?  This is the
filter used by every store call in the routes (for example
`find_one ⦃"p_id": p_id⦄). -/
def docMatchesId (key idv : String) (d : Doc) : Bool :=
  match docLookup d key with
  | some (.vStr s) => s == idv
  | _ => false

/-- `collection.find_one` with filter `key = idv`: first matching document,
in natural (insertion) order; returns a not-found signal on absence. -/
def find_one : List Doc → String → String → Option Doc
  | [], _, _ => none
  | d :: ds, key, idv => if docMatchesId key idv d then some d else find_one ds key idv

/-- `collection.update_one` with filter `key = idv` and a `$set` patch:
applies the patch to the first matching document only. -/
def update_one : List Doc → String → String → Doc → List Doc
  | [], _, _, _ => []
  | d :: ds, key, idv, patch =>
      if docMatchesId key idv d then setFields d patch :: ds
      else d :: update_one ds key idv patch

/-- `collection.delete_one` with filter `key = idv`: removes the first
matching document and reports the deleted count (0 or 1). -/
def delete_one : List Doc → String → String → Nat × List Doc
  | [], _, _ => (0, [])
  | d :: ds, key, idv =>
      if docMatchesId key idv d then (1, ds)
      else
        let r := delete_one ds key idv
        (r.1, d :: r.2)

/-- `collection.insert_one`: appends the document in natural order.  In the
model the insert is always acknowledged (`result.inserted_id` is truthy). -/
def insert_one (coll : List Doc) (d : Doc) : List Doc := coll ++ [d]

/-- The Redis cache: keys are paper ids, values the cached documents.  The
JSON round-trip (`json.dumps` on set / `json.loads` on get) is modelled as
the identity; `json.dumps` of a document is never the empty string, so
Python truthiness of `redis_client.get` coincides with presence. -/
abbrev Cache := List (String × Doc)

/-- `redis_client.get`. -/
def cacheGet : Cache → String → Option Doc
  | [], _ => none
  | (k', d) :: rest, k => if k' == k then some d else cacheGet rest k

/-- `redis_client.set`: overwrites any previous value for the key. -/
def cacheSet (c : Cache) (k : String) (d : Doc) : Cache :=
  (k, d) :: c.filter (fun kv => kv.1 != k)

/-- `redis_client.delete`. -/
def cacheDel (c : Cache) (k : String) : Cache :=
  c.filter (fun kv => kv.1 != k)

/-! ### Pydantic models, from `src/models/paper_model.py`

Each model is embedded as a validating parser from a raw value to a
normalized value, mirroring pydantic v2 construction of the model composed
with `model_dump`: required fields must be present with the declared
runtime type, each `field_validator` is applied, optional fields get their
declared defaults, extra keys are ignored (the default pydantic config),
and the dump lists the fields in declaration order.  Lax-mode numeric
coercions (such as a digit string validating as an int) are not exercised
by any handler and are elided. -/

/-- A `str`-typed value. -/
def asStr? : Value → Option String
  | .vStr s => some s
  | _ => none

/-- An `int`-typed value. -/
def asInt? : Value → Option Int
  | .vInt n => some n
  | _ => none

/-- Validation of a field declared `Optional[str]` with default `None`:
absent and null validate to null; a string validates to itself; any other
value is a ValidationError. -/
def optStr? : Option Value → Option Value
  | none => some .vNull
  | some .vNull => some .vNull
  | some (.vStr s) => some (.vStr s)
  | some _ => none

/-- Allowed `Question.type` values, from `validate_question_type`. -/
def questionTypes : List String := ["short", "long", "multiple_choice"]

/-- Allowed `Section.type` values, from `validate_section_type`. -/
def sectionTypes : List String := ["default", "custom"]

/-- Allowed `SamplePaper.type` values, from `validate_paper_type`. -/
def paperTypes : List String := ["previous_year", "mock", "sample"]

/-- Construction plus dump of `Question`: validates the seven fields,
applies the type-enum validator, fills the defaults of `hint` (null) and
`params` (empty dict), and produces the normalized document in declaration
order. -/
def parseQuestion : Value → Option Value
  | .vObj f => do
      let q ← (docLookup f "question").bind asStr?
      let a ← (docLookup f "answer").bind asStr?
      let ty ← (docLookup f "type").bind asStr?
      if questionTypes.contains ty then
        let slug ← (docLookup f "question_slug").bind asStr?
        let rid ← (docLookup f "reference_id").bind asStr?
        let hint ← optStr? (docLookup f "hint")
        let params ← match docLookup f "params" with
          | none => some (Value.vObj [])
          | some .vNull => some Value.vNull
          | some (.vObj o) => some (Value.vObj o)
          | some _ => none
        some (.vObj [("question", .vStr q), ("answer", .vStr a), ("type", .vStr ty),
                     ("question_slug", .vStr slug), ("reference_id", .vStr rid),
                     ("hint", hint), ("params", params)])
      else none
  | _ => none

/-- Construction plus dump of `Section`. -/
def parseSection : Value → Option Value
  | .vObj f => do
      let m ← (docLookup f "marks_per_question").bind asInt?
      let ty ← (docLookup f "type").bind asStr?
      if sectionTypes.contains ty then
        match docLookup f "questions" with
        | some (.vList qs) => do
            let qs' ← qs.mapM parseQuestion
            some (.vObj [("marks_per_question", .vInt m), ("type", .vStr ty),
                         ("questions", .vList qs')])
        | _ => none
      else none
  | _ => none

/-- Construction plus dump of `PaperParams`. -/
def parseParams : Value → Option Value
  | .vObj f => do
      let b ← (docLookup f "board").bind asStr?
      let g ← (docLookup f "grade").bind asInt?
      let sub ← (docLookup f "subject").bind asStr?
      some (.vObj [("board", .vStr b), ("grade", .vInt g), ("subject", .vStr sub)])
  | _ => none

/-- A `List[str]`-typed value, renormalized. -/
def parseStrList : Value → Option Value
  | .vList xs => do
      let ss ← xs.mapM asStr?
      some (.vList (ss.map Value.vStr))
  | _ => none

/-- An in-memory `SamplePaper` instance: one slot per model field.  After
construction each slot holds the validated, normalized value; `setattr`,
as used by `update_paper`, overwrites a slot with a raw unvalidated value,
because the model does not enable assignment validation. -/
structure SamplePaper where
  p_id : Value
  title : Value
  type : Value
  time : Value
  marks : Value
  params : Value
  tags : Value
  chapters : Value
  sections : Value

/-- Model field names of `SamplePaper`, in declaration order. -/
def paperFieldNames : List String :=
  ["p_id", "title", "type", "time", "marks", "params", "tags", "chapters", "sections"]

/-- Pydantic construction of `SamplePaper` from keyword arguments or a raw
document: validates every field (note that `time`, `marks` and the nested
`marks_per_question` and `grade` are plain `int` fields with no sign
constraint), applies the enum validator on `type`, defaults `p_id` to null,
and ignores extra keys. -/
def parsePaper (doc : Doc) : Option SamplePaper := do
  let pid ← optStr? (docLookup doc "p_id")
  let title ← (docLookup doc "title").bind asStr?
  let ty ← (docLookup doc "type").bind asStr?
  if paperTypes.contains ty then
    let time ← (docLookup doc "time").bind asInt?
    let marks ← (docLookup doc "marks").bind asInt?
    let params ← (docLookup doc "params").bind parseParams
    let tags ← (docLookup doc "tags").bind parseStrList
    let chapters ← (docLookup doc "chapters").bind parseStrList
    let sections ← match docLookup doc "sections" with
      | some (.vList xs) => (xs.mapM parseSection).map Value.vList
      | _ => none
    some (SamplePaper.mk pid (.vStr title) (.vStr ty) (.vInt time) (.vInt marks)
      params tags chapters sections)
  else none

/-- Serialization of a `SamplePaper` instance: the fields in declaration
order.  Raw values assigned by `setattr` are passed through unchanged —
pydantic emits a serialization warning for them, not an error, so the
`except ValueError` around `model_dump()` in `update_paper` can never fire
for schema violations. -/
def SamplePaper.model_dump (o : SamplePaper) : Doc :=
  [("p_id", o.p_id), ("title", o.title), ("type", o.type), ("time", o.time),
   ("marks", o.marks), ("params", o.params), ("tags", o.tags),
   ("chapters", o.chapters), ("sections", o.sections)]

/-- The `hasattr(current_paper, field)` test restricted to model fields.
On the live object `hasattr` is also true for method names, whose
assignment would raise inside the handler; no route payload in the claims
exercises that path. -/
def hasattrPaper (f : String) : Bool := paperFieldNames.contains f

/-- `setattr(current_paper, field, value)` with assignment validation
disabled, the pydantic default: stores the raw value in the named slot
without running any validator. -/
def setattrRaw (o : SamplePaper) (f : String) (v : Value) : SamplePaper :=
  match f with
  | "p_id" => { o with p_id := v }
  | "title" => { o with title := v }
  | "type" => { o with type := v }
  | "time" => { o with time := v }
  | "marks" => { o with marks := v }
  | "params" => { o with params := v }
  | "tags" => { o with tags := v }
  | "chapters" => { o with chapters := v }
  | "sections" => { o with sections := v }
  | _ => o

/-- The merge loop of `update_paper`: for each patch entry in order, set the
attribute when the model has that field, otherwise skip it. -/
def mergeRaw (o : SamplePaper) (patch : Doc) : SamplePaper :=
  patch.foldl (fun c kv => if hasattrPaper kv.1 then setattrRaw c kv.1 kv.2 else c) o

/-- An in-memory `Tasks` instance plus the set of explicitly provided
fields, which pydantic tracks for `exclude_unset`. -/
structure Tasks where
  t_id : Value
  task_status : Value
  extract_data : Value
  file_path : Value
  file_type : Value
  datetime : Value
  providedKeys : List String

/-- Pydantic construction of `Tasks` from keyword arguments (absent
argument = field not passed): `t_id`, `extract_data`, `file_path` and
`file_type` are `Optional[str]`; `task_status` is a required `str`; the
`datetime` default-factory value `ts` bypasses validation because pydantic
does not validate defaults.  Returns the none signal on ValidationError. -/
def Tasks.mk? (t_id task_status extract_data file_path file_type : Option Value)
    (ts : Value) : Option Tasks := do
  let tid ← optStr? t_id
  let st ← match task_status with
    | some (.vStr st') => some (Value.vStr st')
    | _ => none
  let ed ← optStr? extract_data
  let fp ← optStr? file_path
  let ft ← optStr? file_type
  some (Tasks.mk tid st ed fp ft ts
    (List.filterMap (fun kv => if kv.2 then some kv.1 else none)
      [("t_id", t_id.isSome), ("task_status", task_status.isSome),
       ("extract_data", extract_data.isSome), ("file_path", file_path.isSome),
       ("file_type", file_type.isSome)]))

/-- The six fields of a `Tasks` instance in declaration order. -/
def Tasks.allFields (t : Tasks) : Doc :=
  [("t_id", t.t_id), ("task_status", t.task_status), ("extract_data", t.extract_data),
   ("file_path", t.file_path), ("file_type", t.file_type), ("datetime", t.datetime)]

/-- The dump `model_dump` with an `exclude` set. -/
def Tasks.dumpExcluding (t : Tasks) (excl : List String) : Doc :=
  t.allFields.filter (fun kv => !(excl.contains kv.1))

/-- The dump `model_dump` with `exclude_unset`: only explicitly provided
fields are emitted. -/
def Tasks.dumpExcludeUnset (t : Tasks) : Doc :=
  t.allFields.filter (fun kv => t.providedKeys.contains kv.1)

/-! ### Responses and handlers, from `src/routes/paper_routes.py` and
`src/helper/helper.py` -/

/-- HTTP response bodies produced by the application.  The `envelope`
constructor is the uniform wrapper built by `CustomStandard.response`:
`StandardResponse(code, status, message, data).model_dump()`, exactly the
four keys code, status, message and data.  The `httpError` constructor is a
raised `HTTPException` or a FastAPI request-validation failure, which the
framework renders with its separate detail shape, not with the envelope. -/
inductive Response where
  | envelope (code : Int) (status message : String) (data : Option Value)
  | httpError (code : Int) (detail : String)

/-- Is the response the uniform envelope shape? -/
def Response.isEnvelope : Response → Bool
  | .envelope _ _ _ _ => true
  | .httpError _ _ => false

/-- The mutable world the handlers touch: the `papers` collection, the
Redis cache, and the `Tasks` collection — `db.papers`, `redis_client` and
`db.Tasks`. -/
structure AppState where
  papers : List Doc
  cache : Cache
  tasks : List Doc

/-- The state before any request was served. -/
def initState : AppState := AppState.mk [] [] []

/-- Handler body of `POST /paper`, entered after FastAPI validated the body
into a `SamplePaper`; `gen` is the freshly generated `uuid.uuid4()` string
assigned into the dump before insertion.  The insert is acknowledged in the
model, so the 500 branch is unreachable. -/
def create_paper (paper : SamplePaper) (gen : String) (s : AppState) :
    Response × AppState :=
  let paper_dict := setField paper.model_dump "p_id" (.vStr gen)
  ( .envelope 200 "success" "Sample paper created successfully"
      (some (.vObj [("paper_id", .vStr gen)])),
    AppState.mk (insert_one s.papers paper_dict) s.cache s.tasks )

/-- The route `POST /paper` including FastAPI body validation: an invalid
body is rejected with a 422 request-validation response before the handler
runs. -/
def create_paper_route (body : Doc) (gen : String) (s : AppState) :
    Response × AppState :=
  match parsePaper body with
  | some paper => create_paper paper gen s
  | none => (.httpError 422 "Unprocessable Entity", s)

/-- The route `GET /papers/...`: cache first; on miss read the store and,
when found, populate the cache before returning; absence in both is 404.
The pop of the Mongo-internal id field is the identity in the model. -/
def get_paper (p_id : String) (s : AppState) : Response × AppState :=
  match cacheGet s.cache p_id with
  | some cached_paper_data =>
      ( .envelope 200 "success" "Paper retrieved from cache"
          (some (.vObj cached_paper_data)), s )
  | none =>
      match find_one s.papers "p_id" p_id with
      | some paper =>
          ( .envelope 200 "success" "Paper retrieved from database"
              (some (.vObj paper)),
            AppState.mk s.papers (cacheSet s.cache p_id paper) s.tasks )
      | none => (.httpError 404 "Paper not found", s)

/-- The route `PUT /papers/...`: find the stored document, reconstruct the
model (a ValidationError here escapes as a 500), merge the patch via
unvalidated `setattr`, dump, `$set` the raw patch in the store, and mirror
the merged dump into the cache.  `model_dump` cannot raise `ValueError`,
so the 422 branch of the source is dead code. -/
def update_paper (p_id : String) (paper : Doc) (s : AppState) :
    Response × AppState :=
  match find_one s.papers "p_id" p_id with
  | none => (.httpError 404 "Paper not found", s)
  | some existing_paper =>
      match parsePaper existing_paper with
      | none => (.httpError 500 "Internal Server Error", s)
      | some current_paper =>
          let updated_paper := (mergeRaw current_paper paper).model_dump
          ( .envelope 200 "success" "Paper updated successfully"
              (some (.vObj updated_paper)),
            AppState.mk (update_one s.papers "p_id" p_id paper)
              (cacheSet s.cache p_id updated_paper) s.tasks )

/-- The function body of `delete_paper(paper_id)`: delete from the store,
404 when nothing was deleted, otherwise drop the cache entry. -/
def delete_paper (paper_id : String) (s : AppState) : Response × AppState :=
  let r := delete_one s.papers "p_id" paper_id
  if r.1 == 0 then
    (.httpError 404 "Paper not found", AppState.mk r.2 s.cache s.tasks)
  else
    ( .envelope 200 "success" "Paper deleted successfully" none,
      AppState.mk r.2 (cacheDel s.cache paper_id) s.tasks )

/-- The route binding for `DELETE /papers/...`: the decorator declares path
parameter `p_id`, but the function signature declares `paper_id`, so
FastAPI binds `paper_id` from the query string and never passes the path
segment to the handler; a request without a `paper_id` query parameter is
rejected with a 422 request-validation error before the handler runs.
This models FastAPI's documented binding semantics applied to the
decorator and signature found in the source. -/
def delete_paper_route (_path_p_id : String) (query_paper_id : Option String)
    (s : AppState) : Response × AppState :=
  match query_paper_id with
  | none => (.httpError 422 "Field required: query parameter paper_id", s)
  | some paper_id => delete_paper paper_id s

/-- The route `POST /extract/text`: `gen` is the generated `uuid.uuid4()`
task id.  Modelled from the spec: `store_file_in_local_dir` and
`determine_file_type` live in the repository's `ai_models` package outside
`src/`; per the spec they store the upload returning its path `file_path`
and detect the declared type `file_type`, so both enter as parameters.
`ts` is the `datetime` default-factory value.  A `Tasks` row in the
processing state is inserted with `extract_data` excluded from the dump,
the worker is scheduled, and a 202 envelope is returned immediately. -/
def extract_text (gen file_path file_type : String) (ts : Value)
    (s : AppState) : Response × AppState :=
  match Tasks.mk? (some (.vStr gen)) (some (.vStr "processing")) none
      (some (.vStr file_path)) (some (.vStr file_type)) ts with
  | none => (.httpError 500 "Internal Server Error", s)
  | some t =>
      ( .envelope 202 "processing" (file_type.toUpper ++ " extraction started")
          (some (.vObj [("task_id", .vStr gen)])),
        AppState.mk s.papers s.cache
          (insert_one s.tasks (t.dumpExcluding ["extract_data"])) )

/-- The background extraction worker `process_Data`.  The `outcome`
parameter abstracts the awaited extraction call — modelled from the spec:
`get_raw_data` lives outside `src/`; it returns extracted text or raises,
and the raised description string is what the source spells as a
stringified exception.  On success the Task is merge-patched to completed.
On failure the source constructs a `Tasks` instance whose `extract_data`
argument is a dict error object, but the field is declared `Optional[str]`,
so the construction itself raises a ValidationError inside the `except`
block: the store update is never reached and the exception escapes the
worker, leaving the Task untouched. -/
def process_Data (outcome : Except String String) (task_id : String)
    (s : AppState) : AppState :=
  match outcome with
  | .ok extract_data =>
      match Tasks.mk? none (some (.vStr "completed")) (some (.vStr extract_data))
          none none .vNull with
      | some t => AppState.mk s.papers s.cache
          (update_one s.tasks "t_id" task_id t.dumpExcludeUnset)
      | none => s
  | .error e =>
      match Tasks.mk? none (some (.vStr "failed")) (some (.vObj [("error", .vStr e)]))
          none none .vNull with
      | some t => AppState.mk s.papers s.cache
          (update_one s.tasks "t_id" task_id t.dumpExcludeUnset)
      | none => s

/-- The route `GET /tasks/...`: look the task up by id and report its
status field; a missing document is a 404.  A document without the status
key would be a KeyError escaping as a 500; no document this system writes
lacks it. -/
def get_task_status (task_id : String) (s : AppState) : Response × AppState :=
  match find_one s.tasks "t_id" task_id with
  | some task =>
      match docLookup task "task_status" with
      | some st =>
          ( .envelope 200 "success" "Task status retrieved"
              (some (.vObj [("status", st)])), s )
      | none => (.httpError 500 "Internal Server Error", s)
  | none => (.httpError 404 "Task not found", s)

/-- One observable operation of the system: a handler invocation or one run
of a scheduled extraction worker. -/
inductive Step : AppState → AppState → Prop where
  | create : ∀ body gen s, Step s (create_paper_route body gen s).2
  | get : ∀ p_id s, Step s (get_paper p_id s).2
  | update : ∀ p_id patch s, Step s (update_paper p_id patch s).2
  | del : ∀ path_id query s, Step s (delete_paper_route path_id query s).2
  | extract : ∀ gen fp ft ts s, Step s (extract_text gen fp ft ts s).2
  | worker : ∀ outcome t_id s, Step s (process_Data outcome t_id s)
  | status : ∀ t_id s, Step s (get_task_status t_id s).2

/-- States reachable from the empty initial state. -/
def Reachable (s : AppState) : Prop := Relation.ReflTransGen Step initState s

/-- Observable status of the task with id `t_id` in state `s`. -/
def taskStatusOf (s : AppState) (t_id : String) : Option Value :=
  (find_one s.tasks "t_id" t_id).bind (fun d => docLookup d "task_status")

/-- A task document this system can have written: its status field is
either processing or completed.  (The failed state is unreachable because
the worker's failure branch dies in the `Tasks` constructor.) -/
def statusOK (d : Doc) : Prop :=
  docLookup d "task_status" = some (.vStr "processing") ∨
  docLookup d "task_status" = some (.vStr "completed")

/-- All task documents of the state satisfy `statusOK`. -/
def tasksOK (s : AppState) : Prop := ∀ d ∈ s.tasks, statusOK d

/-- The raw value currently held in the named model field of a
`SamplePaper` instance (null for a non-field name). -/
def getFieldRaw (o : SamplePaper) (f : String) : Value :=
  match f with
  | "p_id" => o.p_id
  | "title" => o.title
  | "type" => o.type
  | "time" => o.time
  | "marks" => o.marks
  | "params" => o.params
  | "tags" => o.tags
  | "chapters" => o.chapters
  | "sections" => o.sections
  | _ => .vNull

/-- The two response shapes the application can produce: a success envelope
with code 200 or 202, or a framework-rendered error detail with code 404,
422 or 500. -/
def envelopeShapeOrDetail (r : Response) : Prop :=
  (∃ c st m d, r = Response.envelope c st m d ∧ (c = 200 ∨ c = 202))
  ∨ (∃ c dt, r = Response.httpError c dt ∧ (c = 404 ∨ c = 422 ∨ c = 500))

/-! ### Concrete fixtures

The sample payload from the spec scenario, and variants exercising the
validation edge cases of the claims. -/

/-- A valid question payload. -/
def sampleQ : Value := .vObj [("question", .vStr "2+2?"), ("answer", .vStr "4"),
  ("type", .vStr "short"), ("question_slug", .vStr "q1"), ("reference_id", .vStr "r1")]

/-- A valid section payload containing `sampleQ`. -/
def sampleSec : Value := .vObj [("marks_per_question", .vInt 5), ("type", .vStr "default"),
  ("questions", .vList [sampleQ])]

/-- A valid `POST /paper` request body. -/
def sampleBody : Doc := [("title", .vStr "Math Mid-Term"), ("type", .vStr "mock"),
  ("time", .vInt 60), ("marks", .vInt 50),
  ("params", .vObj [("board", .vStr "CBSE"), ("grade", .vInt 10), ("subject", .vStr "Math")]),
  ("tags", .vList []), ("chapters", .vList [.vStr "Algebra"]),
  ("sections", .vList [sampleSec])]

/-- The normalized dump of `sampleBody` with paper id `pid` and paper type
`ty`: optional question fields are filled with their defaults. -/
def samplePaperDoc (pid ty : String) : Doc :=
  [("p_id", .vStr pid), ("title", .vStr "Math Mid-Term"), ("type", .vStr ty),
   ("time", .vInt 60), ("marks", .vInt 50),
   ("params", .vObj [("board", .vStr "CBSE"), ("grade", .vInt 10), ("subject", .vStr "Math")]),
   ("tags", .vList []), ("chapters", .vList [.vStr "Algebra"]),
   ("sections", .vList [.vObj [("marks_per_question", .vInt 5), ("type", .vStr "default"),
     ("questions", .vList [.vObj [("question", .vStr "2+2?"), ("answer", .vStr "4"),
       ("type", .vStr "short"), ("question_slug", .vStr "q1"), ("reference_id", .vStr "r1"),
       ("hint", .vNull), ("params", .vObj [])]])]])]

/-- The state after creating `sampleBody` under generated id p1. -/
def st1 : AppState := (create_paper_route sampleBody "p1" initState).2

/-- A schema-correct create body except that `time`, `marks` and
`marks_per_question` carry the given integers. -/
def intBody (t m q : Int) : Doc :=
  [("title", .vStr "T"), ("type", .vStr "sample"),
   ("time", .vInt t), ("marks", .vInt m),
   ("params", .vObj [("board", .vStr "B"), ("grade", .vInt 1), ("subject", .vStr "S")]),
   ("tags", .vList []), ("chapters", .vList []),
   ("sections", .vList [.vObj [("marks_per_question", .vInt q), ("type", .vStr "custom"),
     ("questions", .vList [])]])]

/-- The normalized `SamplePaper` instance `intBody` validates to. -/
def intPaper (t m q : Int) : SamplePaper :=
  SamplePaper.mk .vNull (.vStr "T") (.vStr "sample") (.vInt t) (.vInt m)
    (.vObj [("board", .vStr "B"), ("grade", .vInt 1), ("subject", .vStr "S")])
    (.vList []) (.vList [])
    (.vList [.vObj [("marks_per_question", .vInt q), ("type", .vStr "custom"),
      ("questions", .vList [])]])

/-! ### Lemmas about documents and collections -/

theorem docLookup_setField_self (d : Doc) (k : String) (v : Value) :
    docLookup (setField d k v) k = some v := by
  induction d with
  | nil => simp [setField, docLookup]
  | cons kv rest ih =>
      obtain ⟨k0, v0⟩ := kv
      by_cases h : k0 = k
      · simp [setField, docLookup, h]
      · simp [setField, docLookup, h, ih]

theorem docLookup_setField_ne (d : Doc) (k k' : String) (v : Value) (h : k' ≠ k) :
    docLookup (setField d k v) k' = docLookup d k' := by
  have hks : k ≠ k' := Ne.symm h
  induction d with
  | nil => simp [setField, docLookup, hks]
  | cons kv rest ih =>
      obtain ⟨k0, v0⟩ := kv
      by_cases h0 : k0 = k
      · subst h0
        simp [setField, docLookup, hks]
      · simp [setField, docLookup, h0, ih]

theorem docMatchesId_eq_of_both (key x y : String) (d : Doc)
    (hx : docMatchesId key x d = true) (hy : docMatchesId key y d = true) : x = y := by
  unfold docMatchesId at hx hy
  cases hl : docLookup d key with
  | none => rw [hl] at hx; simp at hx
  | some v =>
      rw [hl] at hx hy
      cases v with
      | vStr sv => simp at hx hy; rw [← hx, ← hy]
      | vNull => simp at hx
      | vInt n => simp at hx
      | vList l => simp at hx
      | vObj o => simp at hx

theorem find_one_insert (coll : List Doc) (d : Doc) (key idv : String) :
    find_one (insert_one coll d) key idv =
      match find_one coll key idv with
      | some d0 => some d0
      | none => if docMatchesId key idv d then some d else none := by
  induction coll with
  | nil => rfl
  | cons d0 ds ih =>
      by_cases h : docMatchesId key idv d0
      · simp [insert_one, find_one, h]
      · simpa [insert_one, find_one, h] using ih

theorem update_one_not_found (coll : List Doc) (key idv : String) (patch : Doc)
    (h : find_one coll key idv = none) :
    update_one coll key idv patch = coll := by
  induction coll with
  | nil => rfl
  | cons d ds ih =>
      by_cases hm : docMatchesId key idv d
      · simp [find_one, hm] at h
      · simp only [find_one, hm, if_false, Bool.false_eq_true] at h
        simp [update_one, hm, ih h]

theorem mem_update_one (coll : List Doc) (key idv : String) (patch : Doc) (d' : Doc)
    (h : d' ∈ update_one coll key idv patch) :
    d' ∈ coll ∨ ∃ d ∈ coll, d' = setFields d patch := by
  induction coll with
  | nil => cases h
  | cons d ds ih =>
      by_cases hm : docMatchesId key idv d
      · simp only [update_one, hm, if_true, List.mem_cons] at h
        cases h with
        | inl h => exact Or.inr ⟨d, List.mem_cons_self d ds, h⟩
        | inr h => exact Or.inl (List.mem_cons_of_mem d h)
      · simp only [update_one, hm, Bool.false_eq_true, if_false, List.mem_cons] at h
        cases h with
        | inl h => exact Or.inl (h ▸ List.mem_cons_self d ds)
        | inr h =>
            cases ih h with
            | inl h2 => exact Or.inl (List.mem_cons_of_mem d h2)
            | inr h2 =>
                obtain ⟨d0, hd0, he⟩ := h2
                exact Or.inr ⟨d0, List.mem_cons_of_mem d hd0, he⟩

theorem cacheGet_cacheSet_self (c : Cache) (k : String) (d : Doc) :
    cacheGet (cacheSet c k d) k = some d := by
  simp [cacheGet, cacheSet]

/-! ### Unfolding equations for the task-related operations -/

/-- What `POST /extract/text` computes: the `Tasks` construction succeeds
(all arguments are strings), and the inserted row is the dump without the
excluded `extract_data` key. -/
theorem extract_text_eq (gen fp ft : String) (ts : Value) (s : AppState) :
    extract_text gen fp ft ts s =
      ( .envelope 202 "processing" (ft.toUpper ++ " extraction started")
          (some (.vObj [("task_id", .vStr gen)])),
        AppState.mk s.papers s.cache (s.tasks ++
          [[("t_id", .vStr gen), ("task_status", .vStr "processing"),
            ("file_path", .vStr fp), ("file_type", .vStr ft), ("datetime", ts)]]) ) := rfl

/-- What the worker computes on extraction success: a merge-patch of the
task to completed with the extracted text. -/
theorem process_Data_ok (text t_id : String) (s : AppState) :
    process_Data (.ok text) t_id s =
      AppState.mk s.papers s.cache (update_one s.tasks "t_id" t_id
        [("task_status", .vStr "completed"), ("extract_data", .vStr text)]) := rfl

/-- What the worker computes on extraction failure: the `Tasks` construction
inside the `except` block itself fails validation, so the state is
untouched. -/
theorem process_Data_error (e t_id : String) (s : AppState) :
    process_Data (.error e) t_id s = s := rfl

/-! ### No handler other than the extraction pair touches the Tasks
collection -/

theorem create_paper_route_tasks (body : Doc) (gen : String) (s : AppState) :
    (create_paper_route body gen s).2.tasks = s.tasks := by
  unfold create_paper_route create_paper
  split <;> rfl

theorem get_paper_tasks (p : String) (s : AppState) :
    (get_paper p s).2.tasks = s.tasks := by
  unfold get_paper
  split
  · rfl
  · split <;> rfl

theorem update_paper_tasks (p : String) (patch : Doc) (s : AppState) :
    (update_paper p patch s).2.tasks = s.tasks := by
  unfold update_paper
  split
  · rfl
  · split <;> rfl

theorem delete_paper_route_tasks (path : String) (q : Option String) (s : AppState) :
    (delete_paper_route path q s).2.tasks = s.tasks := by
  unfold delete_paper_route delete_paper
  split
  · rfl
  · dsimp only
    split <;> rfl

theorem get_task_status_state (t : String) (s : AppState) :
    (get_task_status t s).2 = s := by
  unfold get_task_status
  split
  · split <;> rfl
  · rfl

/-! ### The status invariant of the Tasks collection -/

theorem statusOK_setFields_completed (d : Doc) (b : Value) :
    statusOK (setFields d [("task_status", Value.vStr "completed"), ("extract_data", b)]) := by
  right
  show docLookup (setField (setField d "task_status" (.vStr "completed")) "extract_data" b)
      "task_status" = _
  rw [docLookup_setField_ne _ _ _ _ (by decide)]
  exact docLookup_setField_self ..

theorem tasksOK_step (s s' : AppState) (hstep : Step s s') (h : tasksOK s) : tasksOK s' := by
  cases hstep with
  | create body gen s =>
      intro d hd; rw [create_paper_route_tasks] at hd; exact h d hd
  | get p s =>
      intro d hd; rw [get_paper_tasks] at hd; exact h d hd
  | update p patch s =>
      intro d hd; rw [update_paper_tasks] at hd; exact h d hd
  | del path q s =>
      intro d hd; rw [delete_paper_route_tasks] at hd; exact h d hd
  | status t s =>
      intro d hd; rw [get_task_status_state] at hd; exact h d hd
  | extract gen fp ft ts s =>
      intro d hd
      rw [extract_text_eq] at hd
      simp only [List.mem_append, List.mem_singleton] at hd
      cases hd with
      | inl hd => exact h d hd
      | inr hd =>
          subst hd
          left
          simp [docLookup]
  | worker outcome t_id s =>
      cases outcome with
      | ok text =>
          intro d hd
          rw [process_Data_ok] at hd
          cases mem_update_one _ _ _ _ _ hd with
          | inl h2 => exact h d h2
          | inr h2 =>
              obtain ⟨d0, _, he⟩ := h2
              exact he ▸ statusOK_setFields_completed d0 _
      | error e =>
          intro d hd
          rw [process_Data_error] at hd
          exact h d hd

theorem reachable_tasksOK (s : AppState) (h : Reachable s) : tasksOK s := by
  unfold Reachable at h
  induction h with
  | refl => intro d hd; cases hd
  | tail _ hstep ih => exact tasksOK_step _ _ hstep ih

/-- The effect of the worker's merge-patch on the observable status of any
task id: either the status is unchanged or it becomes the patched status,
and the latter can happen only for the patched id when a document for it
exists. -/
theorem worker_patch_status (coll : List Doc) (tid idv : String) (a b : Value) :
    (find_one (update_one coll "t_id" idv [("task_status", a), ("extract_data", b)])
        "t_id" tid).bind (fun d => docLookup d "task_status") =
      (find_one coll "t_id" tid).bind (fun d => docLookup d "task_status")
    ∨ ((find_one (update_one coll "t_id" idv [("task_status", a), ("extract_data", b)])
          "t_id" tid).bind (fun d => docLookup d "task_status") = some a
        ∧ tid = idv ∧ ∃ d, find_one coll "t_id" tid = some d) := by
  induction coll with
  | nil => left; rfl
  | cons d ds ih =>
      have hpatch : ∀ d0 : Doc,
          setFields d0 [("task_status", a), ("extract_data", b)] =
            setField (setField d0 "task_status" a) "extract_data" b := fun _ => rfl
      by_cases hm : docMatchesId "t_id" idv d
      · have hsf : docLookup (setFields d [("task_status", a), ("extract_data", b)]) "t_id"
            = docLookup d "t_id" := by
          rw [hpatch, docLookup_setField_ne _ _ _ _ (by decide),
            docLookup_setField_ne _ _ _ _ (by decide)]
        have hmp : docMatchesId "t_id" tid (setFields d [("task_status", a), ("extract_data", b)])
            = docMatchesId "t_id" tid d := by
          unfold docMatchesId
          rw [hsf]
        by_cases ht : docMatchesId "t_id" tid d
        · right
          refine ⟨?_, docMatchesId_eq_of_both "t_id" tid idv d ht hm, d, by simp [find_one, ht]⟩
          simp only [update_one, hm, if_true, find_one, hmp, ht]
          show docLookup (setFields d [("task_status", a), ("extract_data", b)])
              "task_status" = some a
          rw [hpatch, docLookup_setField_ne _ _ _ _ (by decide), docLookup_setField_self]
        · left
          simp only [update_one, hm, if_true, find_one, hmp, ht, Bool.false_eq_true, if_false]
      · by_cases ht : docMatchesId "t_id" tid d
        · left
          simp only [update_one, hm, Bool.false_eq_true, if_false, find_one, ht, if_true]
        · simp only [update_one, hm, Bool.false_eq_true, if_false, find_one, ht]
          exact ih

/-- The effect of inserting a fresh processing row on the observable status
of any task id: either the status is unchanged, or the id is the inserted
one, it had no document before, and its status becomes processing. -/
theorem insert_processing_status (coll : List Doc) (tid gen : String) (row : Doc)
    (hrow : docLookup row "t_id" = some (.vStr gen))
    (hst : docLookup row "task_status" = some (.vStr "processing")) :
    (find_one (insert_one coll row) "t_id" tid).bind (fun d => docLookup d "task_status") =
      (find_one coll "t_id" tid).bind (fun d => docLookup d "task_status")
    ∨ ((find_one (insert_one coll row) "t_id" tid).bind (fun d => docLookup d "task_status")
          = some (.vStr "processing")
        ∧ find_one coll "t_id" tid = none ∧ tid = gen) := by
  rw [find_one_insert]
  cases hf : find_one coll "t_id" tid with
  | some d0 => left; rfl
  | none =>
      by_cases hm : docMatchesId "t_id" tid row
      · right
        have hg : tid = gen := by
          unfold docMatchesId at hm
          rw [hrow] at hm
          exact (by simpa using hm : gen = tid).symm
        exact ⟨by simp [hm, hst], rfl, hg⟩
      · left
        simp [hm]

theorem find_one_mem (coll : List Doc) (key idv : String) (d : Doc)
    (h : find_one coll key idv = some d) : d ∈ coll := by
  induction coll with
  | nil => cases h
  | cons d0 ds ih =>
      by_cases hm : docMatchesId key idv d0
      · simp only [find_one, hm, if_true, Option.some.injEq] at h
        exact h ▸ List.mem_cons_self d0 ds
      · simp only [find_one, hm, Bool.false_eq_true, if_false] at h
        exact List.mem_cons_of_mem d0 (ih h)

/-! ### Claim theorems -/

/-- C3: every Task is created in state processing when an extraction
request is accepted, with file_path and file_type set and extracted-data
unset, and a GET of the task status at that point reports processing;
along any reachable step of the system, a task's status changes only from
absent to processing (at creation) or from processing to completed or
failed, hence it transitions at most once and never transitions again
after reaching a terminal state. -/
theorem c3_task_lifecycle :
    (∀ gen fp ft : String, ∀ ts : Value, ∀ s : AppState,
      find_one s.tasks "t_id" gen = none →
      taskStatusOf (extract_text gen fp ft ts s).2 gen = some (.vStr "processing")
      ∧ (find_one (extract_text gen fp ft ts s).2.tasks "t_id" gen).bind
          (fun d => docLookup d "file_path") = some (.vStr fp)
      ∧ (find_one (extract_text gen fp ft ts s).2.tasks "t_id" gen).bind
          (fun d => docLookup d "file_type") = some (.vStr ft)
      ∧ (find_one (extract_text gen fp ft ts s).2.tasks "t_id" gen).bind
          (fun d => docLookup d "extract_data") = none
      ∧ (get_task_status gen (extract_text gen fp ft ts s).2).1
          = .envelope 200 "success" "Task status retrieved"
              (some (.vObj [("status", .vStr "processing")])))
    ∧ (∀ s s' : AppState, ∀ tid : String, Reachable s → Step s s' →
        taskStatusOf s' tid ≠ taskStatusOf s tid →
        (taskStatusOf s tid = none ∧ taskStatusOf s' tid = some (.vStr "processing"))
        ∨ (taskStatusOf s tid = some (.vStr "processing")
            ∧ (taskStatusOf s' tid = some (.vStr "completed")
                ∨ taskStatusOf s' tid = some (.vStr "failed")))) := by
  constructor
  · intro gen fp ft ts s hfresh
    have hrow : docMatchesId "t_id" gen
        [("t_id", Value.vStr gen), ("task_status", .vStr "processing"),
         ("file_path", .vStr fp), ("file_type", .vStr ft), ("datetime", ts)] = true := by
      simp [docMatchesId, docLookup]
    have hfind : find_one (extract_text gen fp ft ts s).2.tasks "t_id" gen =
        some [("t_id", Value.vStr gen), ("task_status", .vStr "processing"),
          ("file_path", .vStr fp), ("file_type", .vStr ft), ("datetime", ts)] := by
      rw [extract_text_eq]
      show find_one (insert_one s.tasks _) "t_id" gen = _
      rw [find_one_insert, hfresh]
      simp [hrow]
    refine ⟨?_, ?_, ?_, ?_, ?_⟩
    · unfold taskStatusOf
      rw [hfind]
      rfl
    · rw [hfind]
      rfl
    · rw [hfind]
      rfl
    · rw [hfind]
      rfl
    · unfold get_task_status
      rw [hfind]
      rfl
  · intro s s' tid hreach hstep hne
    have hOK := reachable_tasksOK s hreach
    cases hstep with
    | create body gen =>
        exact absurd (by unfold taskStatusOf; rw [create_paper_route_tasks]) hne
    | get p =>
        exact absurd (by unfold taskStatusOf; rw [get_paper_tasks]) hne
    | update p patch =>
        exact absurd (by unfold taskStatusOf; rw [update_paper_tasks]) hne
    | del path q =>
        exact absurd (by unfold taskStatusOf; rw [delete_paper_route_tasks]) hne
    | status t =>
        exact absurd (by unfold taskStatusOf; rw [get_task_status_state]) hne
    | extract gen fp ft ts =>
        have hs' : (extract_text gen fp ft ts s).2.tasks =
            insert_one s.tasks
              [("t_id", Value.vStr gen), ("task_status", .vStr "processing"),
               ("file_path", .vStr fp), ("file_type", .vStr ft), ("datetime", ts)] := by
          rw [extract_text_eq]
          rfl
        rcases insert_processing_status s.tasks tid gen
            [("t_id", Value.vStr gen), ("task_status", .vStr "processing"),
             ("file_path", .vStr fp), ("file_type", .vStr ft), ("datetime", ts)]
            rfl rfl with hsame | ⟨hnew, hold, _⟩
        · exact absurd (by unfold taskStatusOf; rw [hs']; exact hsame) hne
        · left
          constructor
          · unfold taskStatusOf
            rw [hold]
            rfl
          · unfold taskStatusOf
            rw [hs']
            exact hnew
    | worker outcome t_id0 =>
        cases outcome with
        | error e =>
            exact absurd (by rw [process_Data_error]) hne
        | ok text =>
            have hs' : (process_Data (Except.ok text) t_id0 s).tasks =
                update_one s.tasks "t_id" t_id0
                  [("task_status", .vStr "completed"), ("extract_data", .vStr text)] := by
              rw [process_Data_ok]
            rcases worker_patch_status s.tasks tid t_id0 (.vStr "completed") (.vStr text)
              with hsame | ⟨hnew, _, d, hd⟩
            · exact absurd (by unfold taskStatusOf; rw [hs']; exact hsame) hne
            · have holdstat : taskStatusOf s tid = docLookup d "task_status" := by
                unfold taskStatusOf
                rw [hd]
                rfl
              have hnews : taskStatusOf (process_Data (Except.ok text) t_id0 s) tid
                  = some (.vStr "completed") := by
                unfold taskStatusOf
                rw [hs']
                exact hnew
              cases hOK d (find_one_mem _ _ _ _ hd) with
              | inl hp => exact Or.inr ⟨holdstat.trans hp, Or.inl hnews⟩
              | inr hc => exact absurd (hnews.trans (holdstat.trans hc).symm) hne

/-- Closed witness for C3: from the empty state, accepting an extraction
request creates task t1 whose status reads processing, and the completing
worker step changes that status, a change of the second allowed kind. -/
theorem c3_task_lifecycle_witness :
    taskStatusOf (extract_text "t1" "f.txt" "txt" .vNull initState).2 "t1"
        = some (.vStr "processing")
    ∧ ((taskStatusOf (extract_text "t1" "f.txt" "txt" .vNull initState).2 "t1" = none
        ∧ taskStatusOf (process_Data (Except.ok "hello")
            "t1" (extract_text "t1" "f.txt" "txt" .vNull initState).2) "t1"
          = some (.vStr "processing"))
      ∨ (taskStatusOf (extract_text "t1" "f.txt" "txt" .vNull initState).2 "t1"
          = some (.vStr "processing")
        ∧ (taskStatusOf (process_Data (Except.ok "hello")
              "t1" (extract_text "t1" "f.txt" "txt" .vNull initState).2) "t1"
            = some (.vStr "completed")
          ∨ taskStatusOf (process_Data (Except.ok "hello")
              "t1" (extract_text "t1" "f.txt" "txt" .vNull initState).2) "t1"
            = some (.vStr "failed")))) := by
  constructor
  · exact (c3_task_lifecycle.1 "t1" "f.txt" "txt" .vNull initState rfl).1
  · refine c3_task_lifecycle.2 (extract_text "t1" "f.txt" "txt" .vNull initState).2
      (process_Data (Except.ok "hello") "t1"
        (extract_text "t1" "f.txt" "txt" .vNull initState).2) "t1"
      (Relation.ReflTransGen.single (Step.extract "t1" "f.txt" "txt" .vNull initState))
      (Step.worker (Except.ok "hello") "t1" _) ?_
    intro h
    have h1 : some (Value.vStr "completed") = some (Value.vStr "processing") := h
    have h2 : Value.vStr "completed" = Value.vStr "processing" := by injection h1
    have h3 : "completed" = "processing" := by injection h2
    exact absurd h3 (by decide)

/-- C4: the read path of GET /papers checks the cache first; a hit returns
the cached content tagged as cache-sourced with the state untouched (no
store access is modelled, none can be observed); a miss followed by a store
hit populates the cache with the found record before returning it tagged as
store-sourced; absence in both yields a 404 NotFound with the state, in
particular the cache, untouched. -/
theorem c4_read_path (p : String) (s : AppState) :
    (∀ d, cacheGet s.cache p = some d →
        get_paper p s = (.envelope 200 "success" "Paper retrieved from cache"
          (some (.vObj d)), s))
    ∧ (∀ d, cacheGet s.cache p = none → find_one s.papers "p_id" p = some d →
        get_paper p s = (.envelope 200 "success" "Paper retrieved from database"
          (some (.vObj d)),
          AppState.mk s.papers (cacheSet s.cache p d) s.tasks))
    ∧ (cacheGet s.cache p = none → find_one s.papers "p_id" p = none →
        get_paper p s = (.httpError 404 "Paper not found", s)) := by
  refine ⟨fun d hd => ?_, fun d hc hf => ?_, fun hc hf => ?_⟩
  · unfold get_paper
    rw [hd]
  · unfold get_paper
    rw [hc, hf]
  · unfold get_paper
    rw [hc, hf]

/-- Closed witness for C4: a store-backed read that populates the cache, a
subsequent identical read served from the cache, and a 404 for an id absent
everywhere. -/
theorem c4_read_path_witness :
    get_paper "p1" st1 = (.envelope 200 "success" "Paper retrieved from database"
        (some (.vObj (samplePaperDoc "p1" "mock"))),
        AppState.mk st1.papers (cacheSet st1.cache "p1" (samplePaperDoc "p1" "mock")) st1.tasks)
    ∧ get_paper "p1" (get_paper "p1" st1).2
        = (.envelope 200 "success" "Paper retrieved from cache"
            (some (.vObj (samplePaperDoc "p1" "mock"))), (get_paper "p1" st1).2)
    ∧ get_paper "zz" initState = (.httpError 404 "Paper not found", initState) :=
  ⟨(c4_read_path "p1" st1).2.1 (samplePaperDoc "p1" "mock") rfl rfl,
   (c4_read_path "p1" (get_paper "p1" st1).2).1 (samplePaperDoc "p1" "mock") rfl,
   (c4_read_path "zz" initState).2.2 rfl rfl⟩

/-- C10: POST /paper assigns a freshly generated identifier: whatever the
request body contained, the stored record's p_id is exactly the generated
uuid, and the returned paper_id is that same stored p_id. -/
theorem c10_create_assigns_fresh_id (body : Doc) (paper : SamplePaper) (gen : String)
    (s : AppState) (hbody : parsePaper body = some paper) :
    (create_paper_route body gen s).1
      = .envelope 200 "success" "Sample paper created successfully"
          (some (.vObj [("paper_id", .vStr gen)]))
    ∧ (create_paper_route body gen s).2.papers
      = s.papers ++ [setField paper.model_dump "p_id" (.vStr gen)]
    ∧ docLookup (setField paper.model_dump "p_id" (.vStr gen)) "p_id"
      = some (.vStr gen) := by
  unfold create_paper_route
  rw [hbody]
  exact ⟨rfl, rfl, docLookup_setField_self ..⟩

/-- Closed witness for C10: a body carrying a caller-supplied p_id is
stored under the generated identifier instead. -/
theorem c10_create_assigns_fresh_id_witness :
    docLookup ((create_paper_route (("p_id", Value.vStr "attacker") :: sampleBody)
        "fresh-uuid" initState).2.papers.headD []) "p_id"
      = some (.vStr "fresh-uuid") := by
  have h := c10_create_assigns_fresh_id (("p_id", Value.vStr "attacker") :: sampleBody)
    _ "fresh-uuid" initState rfl
  rw [h.2.1]
  simpa using h.2.2

/-- C8: creating a valid paper and immediately fetching the returned
identifier yields exactly the stored record: the validated payload's dump
with the generated identifier in the p_id field and every other field
unchanged. -/
theorem c8_create_then_get (body : Doc) (paper : SamplePaper) (gen : String) (s : AppState)
    (hbody : parsePaper body = some paper)
    (hcache : cacheGet s.cache gen = none)
    (hstore : find_one s.papers "p_id" gen = none) :
    (create_paper_route body gen s).1
      = .envelope 200 "success" "Sample paper created successfully"
          (some (.vObj [("paper_id", .vStr gen)]))
    ∧ (get_paper gen (create_paper_route body gen s).2).1
      = .envelope 200 "success" "Paper retrieved from database"
          (some (.vObj (setField paper.model_dump "p_id" (.vStr gen))))
    ∧ docLookup (setField paper.model_dump "p_id" (.vStr gen)) "p_id" = some (.vStr gen)
    ∧ (∀ f, f ≠ "p_id" →
        docLookup (setField paper.model_dump "p_id" (.vStr gen)) f
          = docLookup paper.model_dump f) := by
  unfold create_paper_route
  rw [hbody]
  have hmatch : docMatchesId "p_id" gen (setField paper.model_dump "p_id" (.vStr gen)) = true := by
    unfold docMatchesId
    rw [docLookup_setField_self]
    simp
  refine ⟨rfl, ?_, docLookup_setField_self ..,
    fun f hf => docLookup_setField_ne _ _ _ _ hf⟩
  unfold get_paper create_paper
  dsimp only
  rw [hcache, find_one_insert, hstore]
  simp [hmatch]

/-- Closed witness for C8: creating the sample payload under a fresh id and
reading it back returns the normalized record with that id. -/
theorem c8_create_then_get_witness :
    (get_paper "p8" (create_paper_route sampleBody "p8" initState).2).1
      = .envelope 200 "success" "Paper retrieved from database"
          (some (.vObj (samplePaperDoc "p8" "mock"))) := by
  have h := c8_create_then_get sampleBody _ "p8" initState rfl rfl rfl
  exact h.2.1

/-! ### Lemmas about the setattr merge of update_paper -/

theorem hasattrPaper_iff (f : String) : hasattrPaper f = true ↔ f ∈ paperFieldNames := by
  simp [hasattrPaper]

theorem docLookup_model_dump (o : SamplePaper) (f : String) (hf : f ∈ paperFieldNames) :
    docLookup o.model_dump f = some (getFieldRaw o f) := by
  fin_cases hf <;> rfl

theorem getFieldRaw_setattr_self (o : SamplePaper) (f : String) (v : Value)
    (hf : f ∈ paperFieldNames) : getFieldRaw (setattrRaw o f v) f = v := by
  fin_cases hf <;> rfl

theorem getFieldRaw_setattr_ne (o : SamplePaper) (k f : String) (v : Value)
    (hk : k ∈ paperFieldNames) (hf : f ∈ paperFieldNames) (hne : f ≠ k) :
    getFieldRaw (setattrRaw o k v) f = getFieldRaw o f := by
  fin_cases hk <;> fin_cases hf <;> first | exact absurd rfl hne | rfl

theorem getFieldRaw_mergeRaw_not_mem (patch : Doc) (o : SamplePaper) (f : String)
    (hf : f ∈ paperFieldNames) (hmem : f ∉ patch.map Prod.fst) :
    getFieldRaw (mergeRaw o patch) f = getFieldRaw o f := by
  induction patch generalizing o with
  | nil => rfl
  | cons kv rest ih =>
      obtain ⟨k, u⟩ := kv
      simp only [List.map_cons, List.mem_cons, not_or] at hmem
      obtain ⟨hfk, hrest⟩ := hmem
      show getFieldRaw (mergeRaw (if hasattrPaper k then setattrRaw o k u else o) rest) f
        = getFieldRaw o f
      rw [ih _ hrest]
      by_cases hk : hasattrPaper k
      · rw [if_pos hk]
        exact getFieldRaw_setattr_ne o k f u ((hasattrPaper_iff k).mp hk) hf hfk
      · rw [if_neg hk]

theorem getFieldRaw_mergeRaw (patch : Doc) (o : SamplePaper) (f : String) (v : Value)
    (hf : f ∈ paperFieldNames) (hnodup : (patch.map Prod.fst).Nodup)
    (hlk : docLookup patch f = some v) :
    getFieldRaw (mergeRaw o patch) f = v := by
  induction patch generalizing o with
  | nil => cases hlk
  | cons kv rest ih =>
      obtain ⟨k, u⟩ := kv
      simp only [List.map_cons, List.nodup_cons] at hnodup
      obtain ⟨hknotin, hrestnodup⟩ := hnodup
      by_cases hfk : k = f
      · subst hfk
        have hveq : u = v := by simpa [docLookup] using hlk
        show getFieldRaw (mergeRaw (if hasattrPaper k then setattrRaw o k u else o) rest) k = v
        rw [getFieldRaw_mergeRaw_not_mem _ _ _ hf hknotin]
        rw [if_pos ((hasattrPaper_iff k).mpr hf)]
        rw [getFieldRaw_setattr_self _ _ _ hf]
        exact hveq
      · have hlk' : docLookup rest f = some v := by
          simpa [docLookup, hfk] using hlk
        show getFieldRaw (mergeRaw (if hasattrPaper k then setattrRaw o k u else o) rest) f = v
        exact ih _ hrestnodup hlk'

/-- C7: a successful update writes the store and mirrors the merged record
into the cache, both before the handler returns; an immediately following
GET of the same id serves exactly that merged record (a cache hit, so no
stale pre-patch cache value can be observed), and every patched model field
reads back with its patched value. -/
theorem c7_update_write_through (p : String) (patch : Doc) (s : AppState) (existing : Doc)
    (cur : SamplePaper)
    (hfind : find_one s.papers "p_id" p = some existing)
    (hparse : parsePaper existing = some cur)
    (hnodup : (patch.map Prod.fst).Nodup) :
    (update_paper p patch s).1
      = .envelope 200 "success" "Paper updated successfully"
          (some (.vObj (mergeRaw cur patch).model_dump))
    ∧ (update_paper p patch s).2.papers = update_one s.papers "p_id" p patch
    ∧ cacheGet (update_paper p patch s).2.cache p = some (mergeRaw cur patch).model_dump
    ∧ get_paper p (update_paper p patch s).2
      = (.envelope 200 "success" "Paper retrieved from cache"
          (some (.vObj (mergeRaw cur patch).model_dump)), (update_paper p patch s).2)
    ∧ (∀ f v, f ∈ paperFieldNames → docLookup patch f = some v →
        docLookup (mergeRaw cur patch).model_dump f = some v) := by
  have hupd : update_paper p patch s
      = ( .envelope 200 "success" "Paper updated successfully"
            (some (.vObj (mergeRaw cur patch).model_dump)),
          AppState.mk (update_one s.papers "p_id" p patch)
            (cacheSet s.cache p (mergeRaw cur patch).model_dump) s.tasks ) := by
    simp only [update_paper, hfind, hparse]
  refine ⟨by rw [hupd], by rw [hupd], ?_, ?_, ?_⟩
  · rw [hupd]
    exact cacheGet_cacheSet_self ..
  · rw [hupd]
    unfold get_paper
    dsimp only
    rw [cacheGet_cacheSet_self]
  · intro f v hf hlk
    rw [docLookup_model_dump _ _ hf, getFieldRaw_mergeRaw patch cur f v hf hnodup hlk]

/-- Closed witness for C7: updating the stored sample paper's title and
immediately reading it back returns the patched record from the cache. -/
theorem c7_update_write_through_witness :
    (get_paper "p1" (update_paper "p1" [("title", Value.vStr "New Title")] st1).2).1
      = .envelope 200 "success" "Paper retrieved from cache"
          (some (.vObj (setField (samplePaperDoc "p1" "mock") "title" (.vStr "New Title"))))
    ∧ docLookup (setField (samplePaperDoc "p1" "mock") "title" (.vStr "New Title")) "title"
      = some (.vStr "New Title") := by
  have h := c7_update_write_through "p1" [("title", Value.vStr "New Title")] st1
    (samplePaperDoc "p1" "mock") _ rfl rfl (by simp)
  exact ⟨congrArg Prod.fst h.2.2.2.1,
    h.2.2.2.2 "title" (Value.vStr "New Title") (by simp [paperFieldNames])
      (by simp [docLookup])⟩

/-- C1, evaluated at the failing input: the stored sample paper is valid
and the patch sets type to an invalid enum value, yet the handler responds
200 and persists the merged record to both the store and the cache, even
though that merged record fails SamplePaper validation.  The `except
ValueError` guard around `model_dump` in the source never fires, because
neither the setattr merge nor the dump runs any validator. -/
theorem c1_invalid_merge_persisted :
    (update_paper "p1" [("type", Value.vStr "bogus")] st1).1
      = .envelope 200 "success" "Paper updated successfully"
          (some (.vObj (samplePaperDoc "p1" "bogus")))
    ∧ find_one (update_paper "p1" [("type", Value.vStr "bogus")] st1).2.papers "p_id" "p1"
      = some (samplePaperDoc "p1" "bogus")
    ∧ cacheGet (update_paper "p1" [("type", Value.vStr "bogus")] st1).2.cache "p1"
      = some (samplePaperDoc "p1" "bogus")
    ∧ parsePaper (samplePaperDoc "p1" "bogus") = none :=
  ⟨rfl, rfl, rfl, rfl⟩

/-- C2, evaluated at the failing input: with task t1 in processing, an
extraction failure with description boom leaves the state untouched — the
`Tasks` construction inside the except branch is itself rejected by
validation (a dict value for the `Optional[str]` field `extract_data`), so
the task is never patched to failed and still reads processing. -/
theorem c2_failure_not_recorded :
    Tasks.mk? none (some (.vStr "failed")) (some (.vObj [("error", .vStr "boom")]))
        none none .vNull = none
    ∧ process_Data (Except.error "boom") "t1"
        (extract_text "t1" "f.pdf" "pdf" .vNull initState).2
      = (extract_text "t1" "f.pdf" "pdf" .vNull initState).2
    ∧ taskStatusOf (process_Data (Except.error "boom") "t1"
        (extract_text "t1" "f.pdf" "pdf" .vNull initState).2) "t1"
      = some (.vStr "processing") :=
  ⟨rfl, rfl, rfl⟩

/-- C5, evaluated at the failing input: with paper pX stored, a DELETE
naming pX in the path but carrying no paper_id query parameter is rejected
with a 422 request-validation error and deletes nothing, because the
handler's parameter name does not match the declared path parameter; the
deletion is keyed on the query parameter alone, as the second half shows
with an unrelated path segment. -/
theorem c5_delete_ignores_path_id :
    (delete_paper_route "pX" none (create_paper_route sampleBody "pX" initState).2).1
      = .httpError 422 "Field required: query parameter paper_id"
    ∧ (delete_paper_route "pX" none (create_paper_route sampleBody "pX" initState).2).2.papers
      = (create_paper_route sampleBody "pX" initState).2.papers
    ∧ (delete_paper_route "ignored-path" (some "pX")
        (create_paper_route sampleBody "pX" initState).2).1
      = .envelope 200 "success" "Paper deleted successfully" none
    ∧ find_one (delete_paper_route "ignored-path" (some "pX")
        (create_paper_route sampleBody "pX" initState).2).2.papers "p_id" "pX" = none
    ∧ cacheGet (delete_paper_route "ignored-path" (some "pX")
        (create_paper_route sampleBody "pX" initState).2).2.cache "pX" = none :=
  ⟨rfl, rfl, rfl, rfl, rfl⟩

/-- C6, counterexample: the 404 NotFound outcome of GET /papers for an id
absent everywhere is a raised HTTPException rendered by the framework in
its detail shape, not the uniform envelope. -/
theorem c6_counterexample_not_envelope :
    Response.isEnvelope (get_paper "unknown-id" initState).1 = false := rfl

/-- C6, amended: success outcomes (codes 200 and 202) are wrapped in the
uniform envelope built by CustomStandard.response; failure outcomes are
HTTPException or request-validation responses with codes 404, 422 or 500,
rendered by the framework in its detail shape, not the envelope; no
handler produces any other response shape. -/
theorem c6_amended_response_shapes (body patch : Doc) (gen p t path fp ft : String)
    (q : Option String) (ts : Value) (s : AppState) :
    envelopeShapeOrDetail (create_paper_route body gen s).1
    ∧ envelopeShapeOrDetail (get_paper p s).1
    ∧ envelopeShapeOrDetail (update_paper p patch s).1
    ∧ envelopeShapeOrDetail (delete_paper_route path q s).1
    ∧ envelopeShapeOrDetail (extract_text gen fp ft ts s).1
    ∧ envelopeShapeOrDetail (get_task_status t s).1 := by
  refine ⟨?_, ?_, ?_, ?_, ?_, ?_⟩
  · unfold create_paper_route create_paper
    split
    · exact Or.inl ⟨200, _, _, _, rfl, Or.inl rfl⟩
    · exact Or.inr ⟨422, _, rfl, Or.inr (Or.inl rfl)⟩
  · unfold get_paper
    split
    · exact Or.inl ⟨200, _, _, _, rfl, Or.inl rfl⟩
    · split
      · exact Or.inl ⟨200, _, _, _, rfl, Or.inl rfl⟩
      · exact Or.inr ⟨404, _, rfl, Or.inl rfl⟩
  · unfold update_paper
    split
    · exact Or.inr ⟨404, _, rfl, Or.inl rfl⟩
    · split
      · exact Or.inr ⟨500, _, rfl, Or.inr (Or.inr rfl)⟩
      · exact Or.inl ⟨200, _, _, _, rfl, Or.inl rfl⟩
  · unfold delete_paper_route delete_paper
    split
    · exact Or.inr ⟨422, _, rfl, Or.inr (Or.inl rfl)⟩
    · dsimp only
      split
      · exact Or.inr ⟨404, _, rfl, Or.inl rfl⟩
      · exact Or.inl ⟨200, _, _, _, rfl, Or.inl rfl⟩
  · rw [extract_text_eq]
    exact Or.inl ⟨202, _, _, _, rfl, Or.inr rfl⟩
  · unfold get_task_status
    split
    · split
      · exact Or.inl ⟨200, _, _, _, rfl, Or.inl rfl⟩
      · exact Or.inr ⟨500, _, rfl, Or.inr (Or.inr rfl)⟩
    · exact Or.inr ⟨404, _, rfl, Or.inl rfl⟩

/-- C9, counterexample: a payload with time 0, marks -5 and
marks_per_question -1 passes validation unchanged and is created and
persisted with a 200; positivity is not enforced anywhere. -/
theorem c9_counterexample_nonpositive_accepted :
    parsePaper (intBody 0 (-5) (-1)) = some (intPaper 0 (-5) (-1))
    ∧ (create_paper_route (intBody 0 (-5) (-1)) "n1" initState).1
      = .envelope 200 "success" "Sample paper created successfully"
          (some (.vObj [("paper_id", .vStr "n1")]))
    ∧ find_one (create_paper_route (intBody 0 (-5) (-1)) "n1" initState).2.papers "p_id" "n1"
      = some (setField (intPaper 0 (-5) (-1)).model_dump "p_id" (.vStr "n1")) :=
  ⟨rfl, rfl, rfl⟩

/-- C9, amended: time, marks and marks_per_question are declared as plain
int fields with no sign constraint, so validation accepts every integer in
these positions — zero and negatives included — and such payloads are
persisted like any other; only the enum-typed fields are constrained. -/
theorem c9_amended_int_fields_unconstrained (t m q : Int) :
    parsePaper (intBody t m q) = some (intPaper t m q)
    ∧ (create_paper_route (intBody t m q) "n1" initState).2.papers
      = [setField (intPaper t m q).model_dump "p_id" (.vStr "n1")] :=
  ⟨rfl, rfl⟩

end PaperApi
